import Mathlib

/-!
Verification of the debate statistics/scoring engine of the Debate-Analyzer
backend (`server.js`, here `src/unnamed/part_001`), against its
natural-language specification.

Shallow embedding choices:
* A JS string is modelled as a Lean `String`; `arg.text.length` becomes
  `String.length` (character count in the unit of the stored text).
* The JS `Set` of author names (`participantsSet` / `participantSet`) is
  modelled as a `Finset String`: `add` becomes `insert`, `size` becomes
  `card`, which is exactly the distinct-count (SameValueZero on strings is
  case-sensitive exact string equality, as is Lean `String` equality).
* The per-request mutable accumulation (`forEach` over `argumentsList`
  updating a local `stats` object) becomes a left fold with explicit state.
* `winner` is the literal string the code stores: "FOR" / "AGAINST" / "DRAW".
* For the XML escaping function, a JS string is modelled as a `List Char`;
  `str.replace(/c/g, repl)` with a single-character global pattern replaces
  every occurrence of that character, which is `replaceAll` below.
-/

/-- An argument record as supplied by the storage layer
(`models/Argument.js`, here `src/unnamed/part_000`): the fields the
scoring code reads.  `side` is a string; the schema restricts it to
"for" / "against". -/
structure Argument where
  side : String
  text : String
  authorName : String
deriving DecidableEq

/-- The per-debate statistics object built by both handlers
(the `stats` literal at lines 185-192 and the `statsMap[d._id]` literal at
lines 123-131 of `src/unnamed/part_001`), after the `participantSet` field
has been removed. -/
structure Stats where
  «for» : Nat
  against : Nat
  participants : Nat
  forPoints : Nat
  againstPoints : Nat
  winner : String
deriving DecidableEq

/-- The initial `stats` object of the single-debate handler
(lines 185-192): all counters zero, winner "DRAW". -/
def initStats : Stats :=
  { «for» := 0, against := 0, participants := 0,
    forPoints := 0, againstPoints := 0, winner := "DRAW" }

/-- `const isLong = arg.text.length >= 120 ? 1 : 0;` (line 197 / line 136). -/
def isLong (a : Argument) : Nat :=
  if 120 ≤ a.text.length then 1 else 0

/-- One iteration of the `argumentsList.forEach` body of the single-debate
handler (lines 196-208): add the author to the participants set, then
tally the argument on its side (`if (arg.side === "for") {...} else {...}`). -/
def scoreStep (s : Stats × Finset String) (a : Argument) : Stats × Finset String :=
  let st := s.1
  let ps := insert a.authorName s.2
  if a.side = "for" then
    ({ st with «for» := st.«for» + 1,
               forPoints := st.forPoints + (1 + isLong a) }, ps)
  else
    ({ st with against := st.against + 1,
               againstPoints := st.againstPoints + (1 + isLong a) }, ps)

/-- The winner determination of the single-debate handler (lines 213-219):
FOR when forPoints > againstPoints, AGAINST when againstPoints > forPoints,
DRAW otherwise. -/
def setWinner (st : Stats) : Stats :=
  if st.forPoints > st.againstPoints then { st with winner := "FOR" }
  else if st.againstPoints > st.forPoints then { st with winner := "AGAINST" }
  else { st with winner := "DRAW" }

/-- The whole statistics computation of the single-debate handler
(lines 185-219): fold the `forEach` body over the argument list starting
from the zero stats and the empty participants set, store the set's size
in `participants`, then determine the winner. -/
def computeStats (args : List Argument) : Stats :=
  let p := args.foldl scoreStep (initStats, (∅ : Finset String))
  setWinner { p.1 with participants := p.2.card }

/-- The `statsMap` entry of the list handler (lines 123-131) carries its
participant set as a field of the object itself. -/
structure StatsL where
  «for» : Nat
  against : Nat
  participants : Nat
  forPoints : Nat
  againstPoints : Nat
  winner : String
  participantSet : Finset String
deriving DecidableEq

/-- The freshly initialised `statsMap[d._id]` object (lines 123-131). -/
def initStatsL : StatsL :=
  { «for» := 0, against := 0, participants := 0,
    forPoints := 0, againstPoints := 0, winner := "DRAW",
    participantSet := ∅ }

/-- One iteration of the `argumentsList.forEach` body of the list handler
(lines 134-147). -/
def scoreStepL (st : StatsL) (a : Argument) : StatsL :=
  let isLongL : Nat := if 120 ≤ a.text.length then 1 else 0
  let st := { st with participantSet := insert a.authorName st.participantSet }
  if a.side = "for" then
    { st with «for» := st.«for» + 1, forPoints := st.forPoints + (1 + isLongL) }
  else
    { st with against := st.against + 1,
              againstPoints := st.againstPoints + (1 + isLongL) }

/-- The final-calculations pass of the list handler (lines 150-157): store
the set size in `participants`, delete the set, determine the winner. -/
def finalizeL (st : StatsL) : Stats :=
  let winner :=
    if st.forPoints > st.againstPoints then "FOR"
    else if st.againstPoints > st.forPoints then "AGAINST"
    else "DRAW"
  { «for» := st.«for», against := st.against,
    participants := st.participantSet.card,
    forPoints := st.forPoints, againstPoints := st.againstPoints,
    winner := winner }

/-- The statistics the list handler computes for one debate, given the
arguments belonging to that debate (lines 119-157). -/
def computeStatsList (args : List Argument) : Stats :=
  finalizeL (args.foldl scoreStepL initStatsL)

/-- Whether the code's `arg.side === "for"` test succeeds. -/
def isFor (a : Argument) : Bool := a.side = "for"

/-- The points one argument contributes to `forPoints`. -/
def forPts (a : Argument) : Nat := if a.side = "for" then 1 + isLong a else 0

/-- The points one argument contributes to `againstPoints`. -/
def againstPts (a : Argument) : Nat := if a.side = "for" then 0 else 1 + isLong a

/-- The points field of the side an argument is tallied on: `forPoints`
when the code's `arg.side === "for"` test succeeds, `againstPoints`
otherwise. -/
def sidePoints (st : Stats) (a : Argument) : Nat :=
  if a.side = "for" then st.forPoints else st.againstPoints

/-- A sample "for" argument, used as a concrete input in witnesses. -/
def sampleFor : Argument := { side := "for", text := "x", authorName := "A" }

/-- A sample "against" argument, used as a concrete input in witnesses. -/
def sampleAgainst : Argument := { side := "against", text := "y", authorName := "B" }

/-! ### The XML escaping function (`escapeXml`, lines 293-300) -/

/-- The double-quote character. -/
def quoteChar : Char := Char.ofNat 34

/-- The apostrophe character. -/
def aposChar : Char := Char.ofNat 39

/-- `str.replace(/p/g, r)` for a single-character pattern `p`: every
occurrence of the character `p` is replaced by the string `r`, every other
character is kept. -/
def replaceAll (p : Char) (r : List Char) : List Char → List Char
  | [] => []
  | c :: cs => (if c = p then r else [c]) ++ replaceAll p r cs

/-- `escapeXml` (lines 293-300): the five global replaces applied in the
source's order, `&` first, then `<`, `>`, `"`, `'`. -/
def escapeXml (s : List Char) : List Char :=
  replaceAll aposChar "&apos;".data
    (replaceAll quoteChar "&quot;".data
      (replaceAll '>' "&gt;".data
        (replaceAll '<' "&lt;".data
          (replaceAll '&' "&amp;".data s))))

/-- The specification's view of escaping, written from the spec's words:
each of the five XML-special characters is replaced by its entity and
every other character is left unchanged, in one pass over the string. -/
def escapeCharSpec (c : Char) : List Char :=
  if c = '&' then "&amp;".data
  else if c = '<' then "&lt;".data
  else if c = '>' then "&gt;".data
  else if c = quoteChar then "&quot;".data
  else if c = aposChar then "&apos;".data
  else [c]

/-- One-pass character-by-character escaping, from the spec's words. -/
def escapeXmlSpec : List Char → List Char
  | [] => []
  | c :: cs => escapeCharSpec c ++ escapeXmlSpec cs

/-! ### Characterisation of the fold -/

set_option maxRecDepth 10000

/-- Unrolling the single-debate handler's `forEach`: starting from any
stats object and any participants set, the fold adds the per-side counts
and point sums and unions in the authors. -/
theorem foldl_scoreStep (l : List Argument) (st : Stats) (s : Finset String) :
    l.foldl scoreStep (st, s) =
      ({ «for» := st.«for» + l.countP isFor,
         against := st.against + l.countP (fun a => !isFor a),
         participants := st.participants,
         forPoints := st.forPoints + (l.map forPts).sum,
         againstPoints := st.againstPoints + (l.map againstPts).sum,
         winner := st.winner },
       s ∪ (l.map Argument.authorName).toFinset) := by
  induction l generalizing st s with
  | nil => simp
  | cons a l ih =>
    simp only [List.foldl_cons, scoreStep]
    by_cases h : a.side = "for"
    · rw [if_pos h, ih]
      simp [isFor, forPts, againstPts, h, List.countP_cons, Prod.ext_iff,
        Stats.mk.injEq, Finset.insert_union, Finset.union_insert]
      omega
    · rw [if_neg h, ih]
      simp [isFor, forPts, againstPts, h, List.countP_cons, Prod.ext_iff,
        Stats.mk.injEq, Finset.insert_union, Finset.union_insert]
      omega

/-- Closed form of the single-debate handler's statistics computation. -/
theorem computeStats_eq (l : List Argument) :
    computeStats l =
      { «for» := l.countP isFor,
        against := l.countP (fun a => !isFor a),
        participants := (l.map Argument.authorName).toFinset.card,
        forPoints := (l.map forPts).sum,
        againstPoints := (l.map againstPts).sum,
        winner :=
          if (l.map forPts).sum > (l.map againstPts).sum then "FOR"
          else if (l.map againstPts).sum > (l.map forPts).sum then "AGAINST"
          else "DRAW" } := by
  simp only [computeStats, foldl_scoreStep, Finset.empty_union, setWinner, initStats,
    Nat.zero_add]
  split
  · rfl
  · split
    · rfl
    · rfl

/-- Splitting a list by a boolean predicate: the two counts add up to the
length. -/
theorem countP_add_countP_not (p : Argument → Bool) (l : List Argument) :
    l.countP p + l.countP (fun a => !p a) = l.length := by
  induction l with
  | nil => rfl
  | cons a l ih =>
    simp only [List.countP_cons, List.length_cons]
    by_cases h : p a <;> simp [h] <;> omega

/-- Unrolling the list handler's `forEach` in the same way. -/
theorem foldl_scoreStepL (l : List Argument) (st : StatsL) :
    l.foldl scoreStepL st =
      { «for» := st.«for» + l.countP isFor,
        against := st.against + l.countP (fun a => !isFor a),
        participants := st.participants,
        forPoints := st.forPoints + (l.map forPts).sum,
        againstPoints := st.againstPoints + (l.map againstPts).sum,
        winner := st.winner,
        participantSet := st.participantSet ∪ (l.map Argument.authorName).toFinset } := by
  induction l generalizing st with
  | nil => simp
  | cons a l ih =>
    simp only [List.foldl_cons, scoreStepL]
    by_cases h : a.side = "for"
    · simp [h, ih, isFor, forPts, againstPts, isLong, List.countP_cons,
        StatsL.mk.injEq, Finset.insert_union, Finset.union_insert]
      omega
    · simp [h, ih, isFor, forPts, againstPts, isLong, List.countP_cons,
        StatsL.mk.injEq, Finset.insert_union, Finset.union_insert]
      omega

/-- `replaceAll` distributes over concatenation. -/
theorem replaceAll_append (p : Char) (r a b : List Char) :
    replaceAll p r (a ++ b) = replaceAll p r a ++ replaceAll p r b := by
  induction a with
  | nil => rfl
  | cons c cs ih => simp [replaceAll, ih]

/-- `escapeXml` distributes over concatenation. -/
theorem escapeXml_append (a b : List Char) :
    escapeXml (a ++ b) = escapeXml a ++ escapeXml b := by
  simp [escapeXml, replaceAll_append]

/-- On a single character, the five sequential replaces agree with the
one-pass character map: the entity strings produced by the `&` replace and
by the later replaces are never rescanned for the characters already
handled. -/
theorem escapeXml_singleton (c : Char) : escapeXml [c] = escapeCharSpec c := by
  by_cases h1 : c = '&'
  · subst h1; decide
  · by_cases h2 : c = '<'
    · subst h2; decide
    · by_cases h3 : c = '>'
      · subst h3; decide
      · by_cases h4 : c = quoteChar
        · subst h4; decide
        · by_cases h5 : c = aposChar
          · subst h5; decide
          · simp [escapeXml, replaceAll, escapeCharSpec, h1, h2, h3, h4, h5]

/-! ### Claims -/

/-- C1: for every finite input sequence of arguments, the stats computed by
the scorer satisfy forCount + againstCount = length of the input: every
argument is tallied on exactly one side. -/
theorem computeStats_forCount_add_againstCount (args : List Argument) :
    (computeStats args).«for» + (computeStats args).against = args.length := by
  rw [computeStats_eq]
  exact countP_add_countP_not isFor args

/-- C2: the computed winner is FOR when forPoints > againstPoints, AGAINST
when againstPoints > forPoints, and DRAW otherwise; and on the
three-argument input (FOR/length 1/author A, FOR/length 1/author B,
AGAINST/length 150/author C) the result is forCount=2, forPoints=2,
againstCount=1, againstPoints=2, winner=DRAW, participants=3. -/
theorem computeStats_winner_rule_and_draw_example :
    (∀ args : List Argument,
      (computeStats args).winner =
        if (computeStats args).forPoints > (computeStats args).againstPoints then "FOR"
        else if (computeStats args).againstPoints > (computeStats args).forPoints then
          "AGAINST"
        else "DRAW")
    ∧ computeStats
        [{ side := "for", text := "x", authorName := "A" },
         { side := "for", text := "y", authorName := "B" },
         { side := "against", text := String.mk (List.replicate 150 'z'),
           authorName := "C" }] =
      { «for» := 2, against := 1, participants := 3,
        forPoints := 2, againstPoints := 2, winner := "DRAW" } := by
  constructor
  · intro args
    rw [computeStats_eq]
  · decide

/-- C3: each argument contributes exactly 1 point to its side when its text
length is below 120 and exactly 2 points when its text length is at least
120 (inclusive threshold); concretely, a lone FOR argument of length 119
yields forPoints 1 and one of length 120 yields forPoints 2. -/
theorem computeStats_length_bonus :
    (∀ (args : List Argument) (a : Argument),
      sidePoints (computeStats (args ++ [a])) a
        = sidePoints (computeStats args) a + (if 120 ≤ a.text.length then 2 else 1))
    ∧ (computeStats
        [{ side := "for", text := String.mk (List.replicate 119 'w'),
           authorName := "A" }]).forPoints = 1
    ∧ (computeStats
        [{ side := "for", text := String.mk (List.replicate 120 'w'),
           authorName := "A" }]).forPoints = 2 := by
  refine ⟨?_, by decide, by decide⟩
  intro args a
  by_cases h : a.side = "for" <;>
    simp [sidePoints, h, computeStats_eq, forPts, againstPts, isLong] <;>
    split <;> omega

/-- C4: participants equals the number of distinct authorName strings
across all arguments of both sides, under exact (case-sensitive) string
equality; two arguments sharing an author on opposite sides count once. -/
theorem computeStats_participants_distinct_authors :
    (∀ args : List Argument,
      (computeStats args).participants
        = (args.map Argument.authorName).toFinset.card)
    ∧ (computeStats
        [{ side := "for", text := "x", authorName := "Sam" },
         { side := "against", text := "y", authorName := "Sam" }]).participants = 1 := by
  constructor
  · intro args
    rw [computeStats_eq]
  · decide

/-- C5: on the empty input the scorer returns all-zero counters and winner
DRAW. -/
theorem computeStats_nil :
    computeStats [] =
      { «for» := 0, against := 0, participants := 0,
        forPoints := 0, againstPoints := 0, winner := "DRAW" } := by
  decide

/-- C6: permuting the input sequence leaves forPoints, againstPoints,
winner and participants unchanged: the point totals are commutative sums
and participant counting has set semantics. -/
theorem computeStats_perm_invariant (l l' : List Argument) (h : l.Perm l') :
    (computeStats l).forPoints = (computeStats l').forPoints
    ∧ (computeStats l).againstPoints = (computeStats l').againstPoints
    ∧ (computeStats l).winner = (computeStats l').winner
    ∧ (computeStats l).participants = (computeStats l').participants := by
  have hf : (l.map forPts).sum = (l'.map forPts).sum := (h.map forPts).sum_eq
  have ha : (l.map againstPts).sum = (l'.map againstPts).sum :=
    (h.map againstPts).sum_eq
  have hp : (l.map Argument.authorName).toFinset
      = (l'.map Argument.authorName).toFinset :=
    List.toFinset_eq_of_perm _ _ (h.map _)
  rw [computeStats_eq, computeStats_eq]
  simp [hf, ha, hp]

/-- Witness for C6 at a concrete two-element input and its swap. -/
theorem computeStats_perm_invariant_witness :
    (computeStats [sampleFor, sampleAgainst]).forPoints
      = (computeStats [sampleAgainst, sampleFor]).forPoints
    ∧ (computeStats [sampleFor, sampleAgainst]).againstPoints
      = (computeStats [sampleAgainst, sampleFor]).againstPoints
    ∧ (computeStats [sampleFor, sampleAgainst]).winner
      = (computeStats [sampleAgainst, sampleFor]).winner
    ∧ (computeStats [sampleFor, sampleAgainst]).participants
      = (computeStats [sampleAgainst, sampleFor]).participants :=
  computeStats_perm_invariant _ _ (List.Perm.swap sampleAgainst sampleFor [])

/-- C7: the scorer is a pure function of its input: two invocations on
equal input sequences return identical stats in every field. -/
theorem computeStats_deterministic (l₁ l₂ : List Argument) (h : l₁ = l₂) :
    computeStats l₁ = computeStats l₂ := by
  rw [h]

/-- Witness for C7 at a concrete input. -/
theorem computeStats_deterministic_witness :
    computeStats [sampleFor] = computeStats [sampleFor] :=
  computeStats_deterministic [sampleFor] [sampleFor] rfl

/-- C8: the sequential five-entity escaping of the XML export equals the
one-pass character map that replaces &, <, >, double quote and apostrophe
by their entities and leaves every other character unchanged; in
particular no already-produced entity is double-escaped. -/
theorem escapeXml_eq_spec (s : List Char) : escapeXml s = escapeXmlSpec s := by
  induction s with
  | nil => rfl
  | cons c cs ih =>
    have h : c :: cs = [c] ++ cs := rfl
    rw [h, escapeXml_append, escapeXml_singleton, ih]
    rfl

/-- C9: the statistics accumulation of the list endpoint and the one of the
single-debate endpoint agree on every input sequence, in every field. -/
theorem computeStatsList_eq_computeStats (args : List Argument) :
    computeStatsList args = computeStats args := by
  rw [computeStats_eq]
  simp only [computeStatsList, foldl_scoreStepL, initStatsL, finalizeL,
    Nat.zero_add, Finset.empty_union]

/-- C10: the scorer is total on the side field: an argument whose side is
not exactly "for" is tallied toward againstCount and againstPoints through
the else branch, leaving the FOR tallies unchanged, and under the
precondition side ∈ {"for", "against"} that branch is taken exactly for
side = "against". -/
theorem computeStats_else_branch_total (args : List Argument) (a : Argument)
    (h : ¬ a.side = "for") :
    (computeStats (args ++ [a])).against = (computeStats args).against + 1
    ∧ (computeStats (args ++ [a])).againstPoints
        = (computeStats args).againstPoints + (1 + isLong a)
    ∧ (computeStats (args ++ [a])).«for» = (computeStats args).«for»
    ∧ (computeStats (args ++ [a])).forPoints = (computeStats args).forPoints
    ∧ (a.side = "for" ∨ a.side = "against" → a.side = "against") := by
  rw [computeStats_eq, computeStats_eq]
  simp [isFor, forPts, againstPts, h, List.countP_append, List.countP_cons]

/-- Witness for C10 at a concrete input with a malformed side value. -/
theorem computeStats_else_branch_total_witness :
    (computeStats ([] ++ [{ side := "banana", text := "z", authorName := "C" }])).against
      = (computeStats []).against + 1
    ∧ (computeStats ([] ++ [{ side := "banana", text := "z", authorName := "C" }])).againstPoints
      = (computeStats []).againstPoints
        + (1 + isLong { side := "banana", text := "z", authorName := "C" })
    ∧ (computeStats ([] ++ [{ side := "banana", text := "z", authorName := "C" }])).«for»
      = (computeStats []).«for»
    ∧ (computeStats ([] ++ [{ side := "banana", text := "z", authorName := "C" }])).forPoints
      = (computeStats []).forPoints
    ∧ ((Argument.side { side := "banana", text := "z", authorName := "C" }) = "for"
        ∨ (Argument.side { side := "banana", text := "z", authorName := "C" }) = "against"
        → (Argument.side { side := "banana", text := "z", authorName := "C" }) = "against") :=
  computeStats_else_branch_total [] { side := "banana", text := "z", authorName := "C" }
    (by decide)
